import Mathlib

/-!
Verification of the puzzle_bot service layer (src/puzzle_bot/db.py and
src/puzzle_bot/service.py) against its natural-language specification.

The SQLite store is modelled as three Lean lists (table rows in insertion
order); `CURRENT_TIMESTAMP` is an explicit `now : Nat` parameter; SQL
`NULL` is `Option.none`.  SQL three-valued logic matters in one place:
a comparison `p.ply <= ?` or `p.ply >= ?` evaluates to UNKNOWN when
`p.ply` is NULL, and `WHERE` drops such rows, so the model returns
`false` for a comparison against a NULL ply.  `ORDER BY RANDOM() LIMIT 1`
is modelled as taking the head of the filtered row list: the properties
below quantify over "some matching row", never over the distribution.

Python string primitives (`strip`, `split`, `lower`, `isdigit`,
`startswith`, `join`) are re-implemented by structural recursion over
`List Char` so that every definition kernel-evaluates on concrete input.
`str.isdigit` and `str.lower` are modelled at ASCII granularity (the
puzzle CSV format is ASCII).
-/

namespace PuzzleBot

/-- Python `str.isspace` for the ASCII whitespace characters that occur in
CSV lines (space, tab, newline, carriage return, vertical tab, form feed). -/
def isPySpace (c : Char) : Bool :=
  c == ' ' || c == '\t' || c == '\n' || c == '\r' || c == '\x0b' || c == '\x0c'

/-- Drop leading and trailing whitespace characters from a character list. -/
def stripChars (l : List Char) : List Char :=
  ((l.dropWhile isPySpace).reverse.dropWhile isPySpace).reverse

/-- Python `str.strip()`. -/
def pyStrip (s : String) : String := ⟨stripChars s.data⟩

/-- Split a character list at every character satisfying `p`, keeping empty
chunks, as Python `str.split(sep)` does for a one-character separator.
`acc` holds the current chunk reversed. -/
def splitByAux (p : Char → Bool) : List Char → List Char → List (List Char)
  | [], acc => [acc.reverse]
  | c :: cs, acc =>
    if p c then acc.reverse :: splitByAux p cs []
    else splitByAux p cs (c :: acc)

/-- Python `line.split(";")`: empty fields are kept, `"".split(";") = [""]`. -/
def pySplitSemi (s : String) : List String :=
  (splitByAux (fun c => c == ';') s.data []).map (fun l => (⟨l⟩ : String))

/-- Python `str.split()` with no argument: split on whitespace runs and
drop empty tokens, so `"".split() = []`. -/
def pyTokens (s : String) : List String :=
  ((splitByAux isPySpace s.data []).map (fun l => (⟨l⟩ : String))).filter
    (fun t => !(t == ""))

/-- Python `str.lower()` (ASCII). -/
def pyLower (s : String) : String := ⟨s.data.map Char.toLower⟩

/-- Bool test that `pat` is a prefix of `l`. -/
def startsWithChars : List Char → List Char → Bool
  | _, [] => true
  | [], _ :: _ => false
  | c :: cs, p :: ps => p == c && startsWithChars cs ps

/-- Python `s.startswith(pat)`. -/
def pyStartsWith (s pat : String) : Bool := startsWithChars s.data pat.data

/-- Python `sep.join(xs)`. -/
def joinWith (sep : String) : List String → String
  | [] => ""
  | [x] => x
  | x :: y :: rest => x ++ sep ++ joinWith sep (y :: rest)

/-- Python `tok.isdigit()` at ASCII granularity: non-empty and all decimal
digits.  For such a token Python's `int(tok)` always succeeds, so the
`ValueError` branch of the source is unreachable for ASCII-digit tokens. -/
def isNumericToken (t : String) : Bool := !(t == "") && t.data.all Char.isDigit

/-- Python `int(tok)` for a token of decimal digits. -/
def digitsToNat (t : String) : Nat :=
  t.data.foldl (fun acc c => 10 * acc + (c.toNat - 48)) 0

/-- The record `parse_csv_line_detailed` builds (db.py, `PuzzleRecord`). -/
structure PuzzleRecord where
  uhp : String
  solution : String
  ply : Option Int
  title : Option String
  author : String
  to_move : Bool
deriving DecidableEq

/-- Header detection of db.py lines 109-117, applied to `parts[1:]`:
when `parts[1]` strips/lowers to `"inprogress"` and `parts[2]` starts with
`"white"` or `"black"`, the two header fields are dropped and `to_move`
comes from the side token; the result is
`(has_header, to_move from header, remaining segments)`. -/
def splitHeader (restParts : List String) : Bool × Bool × List String :=
  match restParts with
  | p1 :: p2 :: rest2 =>
    let s1 := pyLower (pyStrip p1)
    let s2 := pyLower (pyStrip p2)
    if s1 == "inprogress" && (pyStartsWith s2 "white" || pyStartsWith s2 "black")
    then (true, pyStartsWith s2 "white", rest2)
    else (false, true, restParts)
  | _ => (false, true, restParts)

/-- First purely numeric token of a token list, db.py lines 134-148:
`some (tokens before it, its value, tokens after it)` or `none`. -/
def splitAtDigit : List String → Option (List String × Nat × List String)
  | [] => none
  | t :: ts =>
    if isNumericToken t then some ([], digitsToNat t, ts)
    else
      match splitAtDigit ts with
      | some (b, n, a) => some (t :: b, n, a)
      | none => none

/-- The scan loop of db.py lines 130-155 over the post-header segments,
returning `(move_segments, ply, solution_segments)`.  The Python loop
breaks out at the segment where the ply token is found after appending the
pre-ply tokens to `move_segments`, the post-ply tokens (when non-empty)
and all later segments (stripped) to `solution_segments`; the
`else: solution_segments.append(seg_str)` branch for an already-found ply
is unreachable, because when `solution_segments` is empty after the find,
no later segments exist, so the recursion below is the whole loop. -/
def scanSegs : List String → List String × Option Nat × List String
  | [] => ([], none, [])
  | seg :: rest =>
    let segStr := pyStrip seg
    match splitAtDigit (pyTokens segStr) with
    | some (beforeToks, n, afterToks) =>
      let beforeStr := pyStrip (joinWith " " beforeToks)
      let afterStr := pyStrip (joinWith " " afterToks)
      ((if beforeStr == "" then [] else [beforeStr]), some n,
        (if afterStr == "" then [] else [afterStr]) ++ rest.map pyStrip)
    | none =>
      let r := scanSegs rest
      (segStr :: r.1, r.2.1, r.2.2)

/-- The post-header segments of a line: `parts[start_idx:]` of db.py. -/
def segsAfterHeader (line : String) : List String :=
  (splitHeader (pySplitSemi (pyStrip line)).tail).2.2

/-- db.py `parse_csv_line_detailed(line, default_author=...)`: either
`(some record, none)` or `(none, some reason)` with reason `"moves"`,
`"ply"` or `"solution"`.  `parts.headD ""` stands for `parts[0]`, which
never fails since Python `split` returns a non-empty list. -/
def parse_csv_line_detailed (line : String) (default_author : String) :
    Option PuzzleRecord × Option String :=
  let l := pyStrip line
  let parts := pySplitSemi l
  if l == "" then (none, some "moves")
  else if parts.length < 2 then (none, some "moves")
  else
    let variant := pyStrip (parts.headD "")
    let hd := splitHeader parts.tail
    let segs := hd.2.2
    if segs.isEmpty then (none, some "moves")
    else
      let sc := scanSegs segs
      match sc.2.1 with
      | none => (none, some "ply")
      | some ply =>
        let solution := joinWith ";" (sc.2.2.filter (fun x => !(x == "")))
        if solution == "" then (none, some "solution")
        else
          let uhp := joinWith ";" (variant :: sc.1.filter (fun x => !(x == "")))
          (some { uhp := uhp, solution := solution, ply := some (ply : Int),
                  title := none,
                  author := if default_author == "" then "Mzinga" else default_author,
                  to_move := if hd.1 then hd.2.1 else sc.1.length % 2 == 0 },
           none)

example :
    parse_csv_line_detailed "Base;InProgress;White[3];wS1;bS1;wQ 3 wQ-bS1" "" =
      (some { uhp := "Base;wS1;bS1;wQ", solution := "wQ-bS1", ply := some 3,
              title := none, author := "Mzinga", to_move := true }, none) := by
  decide

/-! ## The relational store (db.py `ensure_schema`) -/

/-- One row of the `puzzles` table. -/
structure PuzzleRow where
  id : Nat
  uhp : String
  solution : String
  ply : Option Int
  title : Option String
  author : String
  to_move : Bool
deriving DecidableEq

/-- One row of the `user_puzzles` table (the Interaction store); the
primary key is `(user_id, puzzle_id)`. -/
structure UserPuzzleRow where
  user_id : String
  puzzle_id : Nat
  attempted_at : Nat
  solved_at : Option Nat
  liked : Option Int
  message_id : Option String
deriving DecidableEq

/-- One row of the `message_puzzles` table (the MessageMapping store); the
primary key is `message_id`. -/
structure MessagePuzzleRow where
  message_id : String
  puzzle_id : Nat
  channel_id : Option String
  posted_by : Option String
deriving DecidableEq

/-- The whole store: the three tables, rows in insertion order. -/
structure DBState where
  puzzles : List PuzzleRow
  user_puzzles : List UserPuzzleRow
  message_puzzles : List MessagePuzzleRow
deriving DecidableEq

/-! ## Selection service (service.py `select_puzzle_for_user`) -/

/-- The ply clause of service.py lines 19-36 applied to one row's ply.
SQLite evaluates `p.ply >= ?` and `p.ply <= ?` to UNKNOWN when `p.ply`
is NULL and `WHERE` drops the row, hence `false` for a NULL ply whenever
the bound is present.  The third conjunct is the explicit
`AND p.ply IS NOT NULL` the code adds when `min_ply` is given (redundant
with the first conjunct, kept to mirror the source). -/
def plyFilter (minPly maxPly : Option Int) (ply : Option Int) : Bool :=
  (match minPly with
   | none => true
   | some m => match ply with | none => false | some p => decide (m ≤ p)) &&
  (match maxPly with
   | none => true
   | some m => match ply with | none => false | some p => decide (p ≤ m)) &&
  (match minPly with
   | none => true
   | some _ => match ply with | none => false | some _ => true)

/-- Rows of `puzzles` passing the ply clause: the tier-3 query's row set. -/
def matchingPuzzles (s : DBState) (minPly maxPly : Option Int) : List PuzzleRow :=
  s.puzzles.filter (fun p => plyFilter minPly maxPly p.ply)

/-- SQL `EXISTS (SELECT 1 FROM user_puzzles WHERE user_id = ? AND
puzzle_id = ?)`. -/
def hasRow (s : DBState) (user_id : String) (pid : Nat) : Bool :=
  s.user_puzzles.any (fun up => up.user_id == user_id && up.puzzle_id == pid)

/-- Whether `user_puzzles` has a row for this user and puzzle with
`solved_at` NULL (the tier-2 join condition). -/
def hasUnsolvedRow (s : DBState) (user_id : String) (pid : Nat) : Bool :=
  s.user_puzzles.any (fun up =>
    up.user_id == user_id && up.puzzle_id == pid && up.solved_at == none)

/-- Row set of the tier-1 ("unseen") query. -/
def unseenMatches (s : DBState) (user_id : String) (minPly maxPly : Option Int) :
    List PuzzleRow :=
  (matchingPuzzles s minPly maxPly).filter (fun p => !(hasRow s user_id p.id))

/-- Row set of the tier-2 ("unsolved") query. -/
def unsolvedMatches (s : DBState) (user_id : String) (minPly maxPly : Option Int) :
    List PuzzleRow :=
  (matchingPuzzles s minPly maxPly).filter (fun p => hasUnsolvedRow s user_id p.id)

/-- service.py `SelectedPuzzle`. -/
structure SelectedPuzzle where
  row : PuzzleRow
  status : String
deriving DecidableEq

/-- service.py `select_puzzle_for_user`: three tiered queries, each
`ORDER BY RANDOM() LIMIT 1` modelled as the head of the filtered list. -/
def select_puzzle_for_user (s : DBState) (user_id : String)
    (minPly maxPly : Option Int) : Option SelectedPuzzle :=
  match (unseenMatches s user_id minPly maxPly).head? with
  | some p => some ⟨p, "new"⟩
  | none =>
    match (unsolvedMatches s user_id minPly maxPly).head? with
    | some p => some ⟨p, "unsolved"⟩
    | none =>
      match (matchingPuzzles s minPly maxPly).head? with
      | some p => some ⟨p, "all_solved"⟩
      | none => none

/-! ## Interaction bookkeeping (service.py) -/

/-- service.py `record_message_for_user`: `INSERT ... ON CONFLICT(user_id,
puzzle_id) DO UPDATE SET attempted_at = CURRENT_TIMESTAMP, message_id =
excluded.message_id`.  The insert leaves `solved_at` and `liked` at their
NULL defaults; the conflict update touches only `attempted_at` and
`message_id`. -/
def record_message_for_user (s : DBState) (now : Nat) (user_id : String)
    (puzzle_id : Nat) (message_id : String) : DBState :=
  if hasRow s user_id puzzle_id then
    { s with user_puzzles := s.user_puzzles.map (fun up =>
        if up.user_id == user_id && up.puzzle_id == puzzle_id then
          { up with attempted_at := now, message_id := some message_id }
        else up) }
  else
    { s with user_puzzles := s.user_puzzles ++
        [{ user_id := user_id, puzzle_id := puzzle_id, attempted_at := now,
           solved_at := none, liked := none, message_id := some message_id }] }

/-- service.py `update_solved`: `UPDATE user_puzzles SET solved_at = CASE
WHEN ? THEN CURRENT_TIMESTAMP ELSE NULL END WHERE user_id = ? AND
puzzle_id = ?` — an UPDATE with no INSERT, so a missing row stays missing. -/
def update_solved (s : DBState) (now : Nat) (user_id : String)
    (puzzle_id : Nat) (solved : Bool) : DBState :=
  { s with user_puzzles := s.user_puzzles.map (fun up =>
      if up.user_id == user_id && up.puzzle_id == puzzle_id then
        { up with solved_at := if solved then some now else none }
      else up) }

/-- service.py `update_like`: normalizes `liked` to `none` unless it is
`1` or `-1`, then `UPDATE user_puzzles SET liked = ? WHERE user_id = ?
AND puzzle_id = ?` — again no INSERT. -/
def update_like (s : DBState) (user_id : String) (puzzle_id : Nat)
    (liked : Option Int) : DBState :=
  let value := if liked == some 1 || liked == some (-1) then liked else none
  { s with user_puzzles := s.user_puzzles.map (fun up =>
      if up.user_id == user_id && up.puzzle_id == puzzle_id then
        { up with liked := value }
      else up) }

/-! ## Message mapping and catalog mutation (service.py, db.py) -/

/-- service.py `record_message_mapping`: `INSERT INTO message_puzzles ...
ON CONFLICT(message_id) DO UPDATE SET puzzle_id = excluded.puzzle_id,
channel_id = excluded.channel_id, posted_by = excluded.posted_by`. -/
def record_message_mapping (s : DBState) (puzzle_id : Nat) (message_id : String)
    (channel_id posted_by : Option String) : DBState :=
  if s.message_puzzles.any (fun mp => mp.message_id == message_id) then
    { s with message_puzzles := s.message_puzzles.map (fun mp =>
        if mp.message_id == message_id then
          { mp with puzzle_id := puzzle_id, channel_id := channel_id,
                    posted_by := posted_by }
        else mp) }
  else
    { s with message_puzzles := s.message_puzzles ++
        [{ message_id := message_id, puzzle_id := puzzle_id,
           channel_id := channel_id, posted_by := posted_by }] }

/-- service.py `delete_puzzle`: `None` (state unchanged) when no puzzle has
the id; otherwise count the referencing `user_puzzles` and
`message_puzzles` rows, delete them and the puzzle in one transaction, and
return the two counts.  The `(new state, returned value)` pair models the
transaction's end state. -/
def delete_puzzle (s : DBState) (puzzle_id : Nat) :
    DBState × Option (Nat × Nat) :=
  if s.puzzles.any (fun p => p.id == puzzle_id) then
    (⟨s.puzzles.filter (fun p => !(p.id == puzzle_id)),
      s.user_puzzles.filter (fun up => !(up.puzzle_id == puzzle_id)),
      s.message_puzzles.filter (fun mp => !(mp.puzzle_id == puzzle_id))⟩,
     some ((s.user_puzzles.filter (fun up => up.puzzle_id == puzzle_id)).length,
           (s.message_puzzles.filter (fun mp => mp.puzzle_id == puzzle_id)).length))
  else (s, none)

/-- SQLite `AUTOINCREMENT`: the next surrogate id, above those in use. -/
def nextId (table : List PuzzleRow) : Nat :=
  (table.map (fun p => p.id)).foldl max 0 + 1

/-- One `INSERT INTO puzzles ... ON CONFLICT(uhp) DO NOTHING` of db.py
`upsert_puzzles`. -/
def upsertOne (acc : List PuzzleRow × Nat) (r : PuzzleRecord) :
    List PuzzleRow × Nat :=
  if acc.1.any (fun row => row.uhp == r.uhp) then acc
  else (acc.1 ++ [{ id := acc.2, uhp := r.uhp, solution := r.solution,
                    ply := r.ply, title := r.title, author := r.author,
                    to_move := r.to_move }], acc.2 + 1)

/-- db.py `upsert_puzzles`: count the table, insert each record with
`ON CONFLICT(uhp) DO NOTHING`, count again, and return
`max(after - before, 0)` (Nat subtraction, since rows are only added). -/
def upsert_puzzles (s : DBState) (records : List PuzzleRecord) :
    DBState × Nat :=
  let table := (records.foldl upsertOne (s.puzzles, nextId s.puzzles)).1
  ({ s with puzzles := table }, table.length - s.puzzles.length)

/-! ## Concrete states used by closed theorems -/

/-- A catalog puzzle whose `ply` is NULL. -/
def nullPlyPuzzle : PuzzleRow :=
  { id := 1, uhp := "Base;wS1", solution := "wQ-bS1", ply := none,
    title := none, author := "Mzinga", to_move := true }

/-- A store holding only `nullPlyPuzzle`, with no interactions. -/
def nullPlyState : DBState := ⟨[nullPlyPuzzle], [], []⟩

/-- A store with one puzzle and one interaction row belonging to a
different user. -/
def otherUserState : DBState :=
  ⟨[nullPlyPuzzle],
   [{ user_id := "other", puzzle_id := 1, attempted_at := 0,
      solved_at := none, liked := none, message_id := none }], []⟩

/-- A store whose message-mapping table has one row for message "m1". -/
def oneMappingState : DBState :=
  ⟨[], [], [{ message_id := "m1", puzzle_id := 1, channel_id := none,
              posted_by := none }]⟩

/-- A store whose one puzzle has a solved Interaction row for "other". -/
def solvedState : DBState :=
  ⟨[nullPlyPuzzle],
   [{ user_id := "other", puzzle_id := 1, attempted_at := 0,
      solved_at := some 1, liked := none, message_id := none }], []⟩

example : parse_csv_line_detailed "onlyonefield" "" = (none, some "moves") := by
  decide

example : parse_csv_line_detailed "a;b c" "" = (none, some "ply") := by
  decide

example : parse_csv_line_detailed "Base;wS1 3" "" = (none, some "solution") := by
  decide

example :
    select_puzzle_for_user otherUserState "other" none none =
      some ⟨nullPlyPuzzle, "unsolved"⟩ := by
  decide

example :
    select_puzzle_for_user solvedState "other" none none =
      some ⟨nullPlyPuzzle, "all_solved"⟩ := by
  decide

example :
    (upsert_puzzles ⟨[], [], []⟩
      [{ uhp := "Base;wS1", solution := "wQ", ply := some 3, title := none,
         author := "a", to_move := true },
       { uhp := "Base;wS1", solution := "other solution", ply := some 9,
         title := none, author := "b", to_move := false }]).2 = 1 := by
  decide

/-! ## General lemmas -/

/-- Mapping a guarded rewrite over a list none of whose elements satisfy
the guard changes nothing. -/
theorem map_guard_id {α : Type} (p : α → Bool) (f : α → α) (l : List α)
    (h : l.any p = false) : (l.map fun x => if p x then f x else x) = l := by
  induction l with
  | nil => rfl
  | cons a t ih =>
    simp only [List.any_cons, Bool.or_eq_false_iff] at h
    simp [List.map_cons, h.1, ih h.2]

/-- A token list with no purely numeric token yields no ply. -/
theorem splitAtDigit_eq_none (ts : List String)
    (h : ∀ t ∈ ts, isNumericToken t = false) : splitAtDigit ts = none := by
  induction ts with
  | nil => rfl
  | cons t ts ih =>
    have h1 := h t (List.mem_cons_self t ts)
    simp [splitAtDigit, h1, ih (fun x hx => h x (List.mem_cons_of_mem t hx))]

/-- When no segment contains a purely numeric token, the scan finds no
ply. -/
theorem scanSegs_ply_none (segs : List String)
    (h : ∀ seg ∈ segs, ∀ tok ∈ pyTokens (pyStrip seg),
      isNumericToken tok = false) :
    (scanSegs segs).2.1 = none := by
  induction segs with
  | nil => rfl
  | cons seg rest ih =>
    have hd := splitAtDigit_eq_none _ (h seg (List.mem_cons_self _ _))
    simp [scanSegs, hd, ih (fun s hs => h s (List.mem_cons_of_mem _ hs))]

/-- An element a non-empty list's `head?` returns is a member. -/
theorem head?_mem {α : Type} {l : List α} {a : α} (h : l.head? = some a) :
    a ∈ l := by
  cases l with
  | nil => cases h
  | cons x t =>
    rw [List.head?_cons, Option.some_inj] at h
    exact h ▸ List.mem_cons_self x t

/-- Every row `select_puzzle_for_user` returns comes from the `puzzles`
table: each tier's query selects `p.* FROM puzzles p`. -/
theorem select_row_mem (s : DBState) (u : String) (mn mx : Option Int)
    (r : SelectedPuzzle) (h : select_puzzle_for_user s u mn mx = some r) :
    r.row ∈ s.puzzles := by
  unfold select_puzzle_for_user at h
  split at h
  · next p hp =>
    cases h
    exact List.mem_of_mem_filter (List.mem_of_mem_filter (head?_mem hp))
  · split at h
    · next p hp =>
      cases h
      exact List.mem_of_mem_filter (List.mem_of_mem_filter (head?_mem hp))
    · split at h
      · next p hp =>
        cases h
        exact List.mem_of_mem_filter (head?_mem hp)
      · cases h

/-! ## Claim theorems -/

/-- C1: with `min_ply` given the code does exclude NULL-ply puzzles, but
with only `max_ply` given it excludes them as well — SQLite evaluates
`p.ply <= ?` to UNKNOWN for a NULL ply, and `WHERE` drops the row — so a
NULL-ply puzzle is not selectable under `max_ply` alone, contradicting the
claim and the code's own comment "Exclude NULL ply only when min_ply is
specified": with no bounds at all the same puzzle is selected. -/
theorem max_ply_alone_excludes_null_ply :
    plyFilter (some 5) none none = false ∧
    plyFilter none (some 5) none = false ∧
    select_puzzle_for_user nullPlyState "u" none (some 5) = none ∧
    select_puzzle_for_user nullPlyState "u" none none =
      some ⟨nullPlyPuzzle, "new"⟩ := by
  decide

/-- C3: the spec's example line parses to exactly the stated record
(`uhp = "Base;wS1;bS1;wQ"`, `ply = 3`, `solution = "wQ-bS1"`,
`to_move = true`; the author falls back to "Mzinga" for an empty
default-author). -/
theorem parse_example_line :
    parse_csv_line_detailed "Base;InProgress;White[3];wS1;bS1;wQ 3 wQ-bS1" "" =
      (some { uhp := "Base;wS1;bS1;wQ", solution := "wQ-bS1", ply := some 3,
              title := none, author := "Mzinga", to_move := true }, none) := by
  decide

/-- C9 counterexample: a second `record_message_mapping` call with an
already-present `message_id` does not leave the row unchanged — the
`ON CONFLICT(message_id) DO UPDATE` overwrites `puzzle_id`, `channel_id`
and `posted_by` with the new values. -/
theorem record_message_mapping_overwrites :
    oneMappingState.message_puzzles =
      [{ message_id := "m1", puzzle_id := 1, channel_id := none,
         posted_by := none }] ∧
    (record_message_mapping oneMappingState 2 "m1" (some "chan")
        (some "bob")).message_puzzles =
      [{ message_id := "m1", puzzle_id := 2, channel_id := some "chan",
         posted_by := some "bob" }] := by
  decide

/-- C9 amended: `record_message_mapping` is an upsert keyed on
`message_id` — it inserts the row when the key is absent, and when a row
with that `message_id` exists it overwrites that row's `puzzle_id`,
`channel_id` and `posted_by` with the new values (keeping `message_id`
unique and leaving every other row and the other two tables unchanged). -/
theorem record_message_mapping_upserts (s : DBState) (pid : Nat)
    (mid : String) (ch pb : Option String) :
    (record_message_mapping s pid mid ch pb).puzzles = s.puzzles ∧
    (record_message_mapping s pid mid ch pb).user_puzzles = s.user_puzzles ∧
    (s.message_puzzles.any (fun mp => mp.message_id == mid) = false →
      (record_message_mapping s pid mid ch pb).message_puzzles =
        s.message_puzzles ++ [{ message_id := mid, puzzle_id := pid,
                                channel_id := ch, posted_by := pb }]) ∧
    (s.message_puzzles.any (fun mp => mp.message_id == mid) = true →
      (record_message_mapping s pid mid ch pb).message_puzzles.length =
        s.message_puzzles.length ∧
      (∀ mp ∈ s.message_puzzles, (mp.message_id == mid) = false →
        mp ∈ (record_message_mapping s pid mid ch pb).message_puzzles) ∧
      (∀ mp ∈ s.message_puzzles, (mp.message_id == mid) = true →
        { mp with puzzle_id := pid, channel_id := ch, posted_by := pb } ∈
          (record_message_mapping s pid mid ch pb).message_puzzles)) := by
  by_cases hc : s.message_puzzles.any (fun mp => mp.message_id == mid) = true
  · refine ⟨by simp [record_message_mapping, hc], by simp [record_message_mapping, hc],
      fun hf => absurd hc (by simp [hf]), fun _ => ⟨?_, ?_, ?_⟩⟩
    · simp [record_message_mapping, hc]
    · intro mp hmp hne
      simp only [record_message_mapping, if_pos hc]
      exact List.mem_map.mpr ⟨mp, hmp, by simp [hne]⟩
    · intro mp hmp heq
      simp only [record_message_mapping, if_pos hc]
      exact List.mem_map.mpr ⟨mp, hmp, by simp [heq]⟩
  · have hf : s.message_puzzles.any (fun mp => mp.message_id == mid) = false := by
      simpa using hc
    refine ⟨by simp [record_message_mapping, hf], by simp [record_message_mapping, hf],
      fun _ => by simp [record_message_mapping, hf], fun ht => absurd ht hc⟩

/-- C2: the three tiers apply in order over the puzzles matching the ply
filter — some matching puzzle without an Interaction row for the user is
returned with status "new"; failing that, some matching puzzle whose
Interaction row has `solved_at` NULL is returned with status "unsolved";
failing that, any matching puzzle is returned with status "all_solved";
and the call returns `none` exactly when no catalog puzzle matches the
ply filter. -/
theorem select_puzzle_tiers (s : DBState) (u : String) (mn mx : Option Int) :
    (unseenMatches s u mn mx ≠ [] →
      ∃ p ∈ unseenMatches s u mn mx,
        select_puzzle_for_user s u mn mx = some ⟨p, "new"⟩) ∧
    (unseenMatches s u mn mx = [] → unsolvedMatches s u mn mx ≠ [] →
      ∃ p ∈ unsolvedMatches s u mn mx,
        select_puzzle_for_user s u mn mx = some ⟨p, "unsolved"⟩) ∧
    (unseenMatches s u mn mx = [] → unsolvedMatches s u mn mx = [] →
      matchingPuzzles s mn mx ≠ [] →
      ∃ p ∈ matchingPuzzles s mn mx,
        select_puzzle_for_user s u mn mx = some ⟨p, "all_solved"⟩) ∧
    (select_puzzle_for_user s u mn mx = none ↔ matchingPuzzles s mn mx = []) := by
  refine ⟨?_, ?_, ?_, ?_, ?_⟩
  · intro h
    cases h1 : unseenMatches s u mn mx with
    | nil => exact absurd h1 h
    | cons a t =>
      exact ⟨a, List.mem_cons_self a t,
        by simp [select_puzzle_for_user, h1]⟩
  · intro h1 h
    cases h2 : unsolvedMatches s u mn mx with
    | nil => exact absurd h2 h
    | cons a t =>
      exact ⟨a, List.mem_cons_self a t,
        by simp [select_puzzle_for_user, h1, h2]⟩
  · intro h1 h2 h
    cases h3 : matchingPuzzles s mn mx with
    | nil => exact absurd h3 h
    | cons a t =>
      exact ⟨a, List.mem_cons_self a t,
        by simp [select_puzzle_for_user, h1, h2, h3]⟩
  · intro hn
    cases h3 : matchingPuzzles s mn mx with
    | nil => rfl
    | cons a t =>
      cases h1 : unseenMatches s u mn mx with
      | cons b t1 => simp [select_puzzle_for_user, h1] at hn
      | nil =>
        cases h2 : unsolvedMatches s u mn mx with
        | cons b t2 => simp [select_puzzle_for_user, h1, h2] at hn
        | nil => simp [select_puzzle_for_user, h1, h2, h3] at hn
  · intro hm
    have h1 : unseenMatches s u mn mx = [] := by
      simp [unseenMatches, hm]
    have h2 : unsolvedMatches s u mn mx = [] := by
      simp [unsolvedMatches, hm]
    simp [select_puzzle_for_user, h1, h2, hm]

/-- C7: `record_message_for_user` is an upsert on `(user_id, puzzle_id)` —
when the Interaction row is absent it is created with `attempted_at` set
to now (and NULL `solved_at`/`liked`); when present, `attempted_at` is
refreshed to now and `message_id` overwritten while `solved_at` and
`liked` keep their old values; the other two tables are untouched. -/
theorem record_delivery_spec (s : DBState) (now : Nat) (u : String)
    (pid : Nat) (mid : String) :
    (record_message_for_user s now u pid mid).puzzles = s.puzzles ∧
    (record_message_for_user s now u pid mid).message_puzzles =
      s.message_puzzles ∧
    (hasRow s u pid = false →
      (record_message_for_user s now u pid mid).user_puzzles =
        s.user_puzzles ++
          [{ user_id := u, puzzle_id := pid, attempted_at := now,
             solved_at := none, liked := none, message_id := some mid }]) ∧
    (hasRow s u pid = true →
      (record_message_for_user s now u pid mid).user_puzzles.length =
        s.user_puzzles.length ∧
      (∀ up ∈ s.user_puzzles, (up.user_id == u && up.puzzle_id == pid) = false →
        up ∈ (record_message_for_user s now u pid mid).user_puzzles) ∧
      (∀ up ∈ s.user_puzzles, (up.user_id == u && up.puzzle_id == pid) = true →
        { up with attempted_at := now, message_id := some mid } ∈
          (record_message_for_user s now u pid mid).user_puzzles)) := by
  by_cases hc : hasRow s u pid = true
  · refine ⟨by simp [record_message_for_user, hc],
      by simp [record_message_for_user, hc],
      fun hf => absurd hc (by simp [hf]), fun _ => ⟨?_, ?_, ?_⟩⟩
    · simp [record_message_for_user, hc]
    · intro up hup hne
      simp only [record_message_for_user, if_pos hc]
      exact List.mem_map.mpr ⟨up, hup, by simp [hne]⟩
    · intro up hup heq
      simp only [record_message_for_user, if_pos hc]
      exact List.mem_map.mpr ⟨up, hup, by simp [heq]⟩
  · have hf : hasRow s u pid = false := by simpa using hc
    refine ⟨by simp [record_message_for_user, hf],
      by simp [record_message_for_user, hf],
      fun _ => by simp [record_message_for_user, hf],
      fun ht => absurd ht hc⟩

/-- C8: `delete_puzzle` returns `none` and leaves the store unchanged when
no puzzle carries the id; otherwise it returns the counts of Interaction
and MessageMapping rows referencing the puzzle and removes, in one
transition, the puzzle row and every row of the other two tables
referencing it (keeping all unrelated rows), after which no
`select_puzzle_for_user` call can return that puzzle. -/
theorem delete_puzzle_spec (s : DBState) (pid : Nat) :
    (s.puzzles.any (fun p => p.id == pid) = false →
      delete_puzzle s pid = (s, none)) ∧
    (s.puzzles.any (fun p => p.id == pid) = true →
      (delete_puzzle s pid).2 =
        some ((s.user_puzzles.filter (fun up => up.puzzle_id == pid)).length,
              (s.message_puzzles.filter (fun mp => mp.puzzle_id == pid)).length) ∧
      (∀ p ∈ (delete_puzzle s pid).1.puzzles, p.id ≠ pid) ∧
      (∀ up ∈ (delete_puzzle s pid).1.user_puzzles, up.puzzle_id ≠ pid) ∧
      (∀ mp ∈ (delete_puzzle s pid).1.message_puzzles, mp.puzzle_id ≠ pid) ∧
      (∀ p ∈ s.puzzles, p.id ≠ pid → p ∈ (delete_puzzle s pid).1.puzzles) ∧
      (∀ up ∈ s.user_puzzles, up.puzzle_id ≠ pid →
        up ∈ (delete_puzzle s pid).1.user_puzzles) ∧
      (∀ mp ∈ s.message_puzzles, mp.puzzle_id ≠ pid →
        mp ∈ (delete_puzzle s pid).1.message_puzzles) ∧
      (∀ u mn mx r, select_puzzle_for_user (delete_puzzle s pid).1 u mn mx =
        some r → r.row.id ≠ pid)) := by
  refine ⟨fun hf => by simp [delete_puzzle, hf], fun ht => ?_⟩
  refine ⟨by simp [delete_puzzle, ht], ?_, ?_, ?_, ?_, ?_, ?_, ?_⟩
  · intro p hp
    simp only [delete_puzzle, if_pos ht] at hp
    simpa using (List.mem_filter.mp hp).2
  · intro up hup
    simp only [delete_puzzle, if_pos ht] at hup
    simpa using (List.mem_filter.mp hup).2
  · intro mp hmp
    simp only [delete_puzzle, if_pos ht] at hmp
    simpa using (List.mem_filter.mp hmp).2
  · intro p hp hne
    simp only [delete_puzzle, if_pos ht]
    exact List.mem_filter.mpr ⟨hp, by simpa using hne⟩
  · intro up hup hne
    simp only [delete_puzzle, if_pos ht]
    exact List.mem_filter.mpr ⟨hup, by simpa using hne⟩
  · intro mp hmp hne
    simp only [delete_puzzle, if_pos ht]
    exact List.mem_filter.mpr ⟨hmp, by simpa using hne⟩
  · intro u mn mx r hsel
    have hmem := select_row_mem _ _ _ _ _ hsel
    simp only [delete_puzzle, if_pos ht] at hmem
    simpa using (List.mem_filter.mp hmem).2

/-- The fold at the heart of `upsert_puzzles`: starting from any table,
it appends exactly the rows whose `uhp` was not present when their record
was processed, never modifies an existing row, and after it every
record's `uhp` is present. -/
theorem upsertFold_spec (records : List PuzzleRecord) :
    ∀ t nid, ∃ newRows,
      (records.foldl upsertOne (t, nid)).1 = t ++ newRows ∧
      (∀ row ∈ newRows, ∀ q ∈ t, q.uhp ≠ row.uhp) ∧
      (∀ r ∈ records, ∃ row ∈ (records.foldl upsertOne (t, nid)).1,
        row.uhp = r.uhp) := by
  induction records with
  | nil => exact fun t nid => ⟨[], by simp, by simp, by simp⟩
  | cons r rs ih =>
    intro t nid
    by_cases hc : t.any (fun row => row.uhp == r.uhp) = true
    · have hstep : upsertOne (t, nid) r = (t, nid) := by simp [upsertOne, hc]
      rw [List.foldl_cons, hstep]
      obtain ⟨newRows, h1, h2, h3⟩ := ih t nid
      refine ⟨newRows, h1, h2, fun r' hr' => ?_⟩
      rcases List.mem_cons.mp hr' with rfl | hmem
      · obtain ⟨q, hq, hq2⟩ := List.any_eq_true.mp hc
        exact ⟨q, by rw [h1]; exact List.mem_append_left _ hq,
          by simpa using hq2⟩
      · exact h3 r' hmem
    · have hcf : t.any (fun row => row.uhp == r.uhp) = false := by simpa using hc
      have hstep : upsertOne (t, nid) r =
          (t ++ [{ id := nid, uhp := r.uhp, solution := r.solution,
                   ply := r.ply, title := r.title, author := r.author,
                   to_move := r.to_move }], nid + 1) := by
        simp [upsertOne, hcf]
      rw [List.foldl_cons, hstep]
      obtain ⟨newRows, h1, h2, h3⟩ :=
        ih (t ++ [{ id := nid, uhp := r.uhp, solution := r.solution,
                    ply := r.ply, title := r.title, author := r.author,
                    to_move := r.to_move }]) (nid + 1)
      refine ⟨{ id := nid, uhp := r.uhp, solution := r.solution,
                ply := r.ply, title := r.title, author := r.author,
                to_move := r.to_move } :: newRows,
        by rw [h1]; simp, ?_, ?_⟩
      · intro row hrow q hq
        rcases List.mem_cons.mp hrow with rfl | hmem
        · have := List.any_eq_false.mp hcf q hq
          simpa using this
        · exact h2 row hmem q (List.mem_append_left _ hq)
      · intro r' hr'
        rcases List.mem_cons.mp hr' with rfl | hmem
        · exact ⟨{ id := nid, uhp := r'.uhp, solution := r'.solution,
                   ply := r'.ply, title := r'.title, author := r'.author,
                   to_move := r'.to_move }, by rw [h1]; simp, rfl⟩
        · exact h3 r' hmem

/-- C4: `parse_csv_line_detailed` is total — every input yields either a
record or one of the reasons "moves", "ply", "solution" — and the failure
checks fire in the source's order: "moves" when the (stripped) line has
fewer than 2 semicolon fields; "ply" when, the field-count check passed,
no purely numeric token occurs in any scanned segment; "solution" when a
ply was found but the assembled solution (the collected segments with the
empty ones dropped) is empty. -/
theorem parse_total_and_reasons (line author : String) :
    ((parse_csv_line_detailed line author).1.isSome = true ∧
       (parse_csv_line_detailed line author).2 = none ∨
     parse_csv_line_detailed line author = (none, some "moves") ∨
     parse_csv_line_detailed line author = (none, some "ply") ∨
     parse_csv_line_detailed line author = (none, some "solution")) ∧
    ((pySplitSemi (pyStrip line)).length < 2 →
      parse_csv_line_detailed line author = (none, some "moves")) ∧
    (2 ≤ (pySplitSemi (pyStrip line)).length →
      segsAfterHeader line ≠ [] →
      (∀ seg ∈ segsAfterHeader line, ∀ tok ∈ pyTokens (pyStrip seg),
        isNumericToken tok = false) →
      parse_csv_line_detailed line author = (none, some "ply")) ∧
    (2 ≤ (pySplitSemi (pyStrip line)).length →
      (scanSegs (segsAfterHeader line)).2.1 ≠ none →
      (scanSegs (segsAfterHeader line)).2.2.filter (fun x => !(x == "")) = [] →
      parse_csv_line_detailed line author = (none, some "solution")) := by
  refine ⟨?_, ?_, ?_, ?_⟩
  · by_cases h1 : (pyStrip line == "") = true
    · exact Or.inr (Or.inl (by simp [parse_csv_line_detailed, h1]))
    · by_cases h2 : (pySplitSemi (pyStrip line)).length < 2
      · exact Or.inr (Or.inl (by simp [parse_csv_line_detailed, h1, h2]))
      · by_cases h3 :
          ((splitHeader (pySplitSemi (pyStrip line)).tail).2.2).isEmpty = true
        · exact Or.inr (Or.inl (by simp [parse_csv_line_detailed, h1, h2, h3]))
        · cases hp : (scanSegs
              ((splitHeader (pySplitSemi (pyStrip line)).tail).2.2)).2.1 with
          | none =>
            exact Or.inr (Or.inr (Or.inl
              (by simp [parse_csv_line_detailed, h1, h2, h3, hp])))
          | some n =>
            by_cases h4 : (joinWith ";"
                ((scanSegs ((splitHeader (pySplitSemi
                  (pyStrip line)).tail).2.2)).2.2.filter
                    (fun x => !(x == ""))) == "") = true
            · exact Or.inr (Or.inr (Or.inr
                (by simp [parse_csv_line_detailed, h1, h2, h3, hp, h4])))
            · exact Or.inl
                (by simp [parse_csv_line_detailed, h1, h2, h3, hp, h4])
  · intro hlen
    by_cases h1 : (pyStrip line == "") = true
    · simp [parse_csv_line_detailed, h1]
    · simp [parse_csv_line_detailed, h1, hlen]
  · intro hlen hne hnum
    have h1 : ¬((pyStrip line == "") = true) := by
      intro hb
      rw [eq_of_beq hb] at hlen
      exact absurd hlen (by decide)
    have h2 : ¬((pySplitSemi (pyStrip line)).length < 2) := by omega
    have h3 :
        ¬(((splitHeader (pySplitSemi (pyStrip line)).tail).2.2).isEmpty = true) := by
      intro hb
      exact hne (by simpa [segsAfterHeader] using hb)
    have hp : (scanSegs
        ((splitHeader (pySplitSemi (pyStrip line)).tail).2.2)).2.1 = none := by
      apply scanSegs_ply_none
      intro seg hs
      exact hnum seg (by simpa [segsAfterHeader] using hs)
    simp [parse_csv_line_detailed, h1, h2, h3, hp]
  · intro hlen hply hsol
    have h1 : ¬((pyStrip line == "") = true) := by
      intro hb
      rw [eq_of_beq hb] at hlen
      exact absurd hlen (by decide)
    have h2 : ¬((pySplitSemi (pyStrip line)).length < 2) := by omega
    rw [segsAfterHeader] at hply hsol
    have h3 :
        ¬(((splitHeader (pySplitSemi (pyStrip line)).tail).2.2).isEmpty = true) := by
      intro hb
      rw [List.isEmpty_iff.mp hb] at hply
      exact hply rfl
    obtain ⟨n, hp⟩ := Option.ne_none_iff_exists'.mp hply
    have h4 : (joinWith ";"
        ((scanSegs ((splitHeader (pySplitSemi
          (pyStrip line)).tail).2.2)).2.2.filter (fun x => !(x == ""))) == "") =
        true := by
      rw [hsol]
      rfl
    simp [parse_csv_line_detailed, h1, h2, h3, hp, h4]

/-- C5: for a line whose header check fails (no `InProgress;White/Black`
header after the variant field) that parses successfully, the returned
`to_move` is true exactly when the number of move segments collected
before the ply token (whole pre-ply segments — empty ones included, as in
the code — plus the pre-ply portion of the ply segment when non-empty) is
even. -/
theorem headerless_to_move_parity (line author : String) (r : PuzzleRecord)
    (h : parse_csv_line_detailed line author = (some r, none))
    (hh : (splitHeader (pySplitSemi (pyStrip line)).tail).1 = false) :
    r.to_move = ((scanSegs (segsAfterHeader line)).1.length % 2 == 0) := by
  simp only [parse_csv_line_detailed] at h
  split at h
  · simp at h
  · split at h
    · simp at h
    · split at h
      · simp at h
      · split at h
        · simp at h
        · split at h
          · simp at h
          · rw [Prod.mk.injEq, Option.some_inj] at h
            rw [← h.1]
            simp [segsAfterHeader, hh]

/-- C5 witness: the headerless line "Base;wS1;bS1;wQ 3 wQ-bS1" parses with
three collected move segments (odd), so `to_move` is false. -/
theorem headerless_to_move_parity_witness :
    ({ uhp := "Base;wS1;bS1;wQ", solution := "wQ-bS1", ply := some 3,
       title := none, author := "Mzinga",
       to_move := false } : PuzzleRecord).to_move =
      ((scanSegs (segsAfterHeader "Base;wS1;bS1;wQ 3 wQ-bS1")).1.length % 2
        == 0) :=
  headerless_to_move_parity "Base;wS1;bS1;wQ 3 wQ-bS1" ""
    { uhp := "Base;wS1;bS1;wQ", solution := "wQ-bS1", ply := some 3,
      title := none, author := "Mzinga", to_move := false }
    (by decide) (by decide)

/-- C6: `upsert_puzzles` only appends to the `puzzles` table — every
pre-existing row survives byte-for-byte, every appended row carries a
`uhp` absent from the prior table, after the call every input record's
`uhp` is present, and the returned count is the table's net row-count
delta (the number of appended rows), not the input length. -/
theorem upsert_puzzles_spec (s : DBState) (records : List PuzzleRecord) :
    ∃ newRows,
      (upsert_puzzles s records).1.puzzles = s.puzzles ++ newRows ∧
      (upsert_puzzles s records).1.user_puzzles = s.user_puzzles ∧
      (upsert_puzzles s records).1.message_puzzles = s.message_puzzles ∧
      (upsert_puzzles s records).2 = newRows.length ∧
      (upsert_puzzles s records).2 =
        (upsert_puzzles s records).1.puzzles.length - s.puzzles.length ∧
      (∀ row ∈ newRows, ∀ q ∈ s.puzzles, q.uhp ≠ row.uhp) ∧
      (∀ r ∈ records, ∃ row ∈ (upsert_puzzles s records).1.puzzles,
        row.uhp = r.uhp) := by
  obtain ⟨newRows, h1, h2, h3⟩ :=
    upsertFold_spec records s.puzzles (nextId s.puzzles)
  refine ⟨newRows, ?_, rfl, rfl, ?_, rfl, h2, ?_⟩
  · simpa [upsert_puzzles] using h1
  · simp [upsert_puzzles, h1]
  · intro r hr
    obtain ⟨row, hrow, he⟩ := h3 r hr
    exact ⟨row, by simpa [upsert_puzzles] using hrow, he⟩

/-- C10: when no Interaction row exists for `(user_id, puzzle_id)`, both
`update_solved` and `update_like` are silent no-ops — they are bare SQL
UPDATEs whose WHERE clause matches nothing, so no row is created, no row
changes, and the whole store is returned unchanged. -/
theorem update_without_row_is_noop (s : DBState) (now : Nat)
    (user_id : String) (puzzle_id : Nat) (solved : Bool) (liked : Option Int)
    (h : hasRow s user_id puzzle_id = false) :
    update_solved s now user_id puzzle_id solved = s ∧
    update_like s user_id puzzle_id liked = s := by
  unfold hasRow at h
  constructor
  · show (⟨s.puzzles, _, s.message_puzzles⟩ : DBState) = s
    rw [map_guard_id _ _ _ h]
  · show (⟨s.puzzles, _, s.message_puzzles⟩ : DBState) = s
    rw [map_guard_id _ _ _ h]

/-- C10 witness: on a store whose only Interaction row belongs to another
user, a solve and a like for user "alice" leave the store unchanged. -/
theorem update_without_row_is_noop_witness :
    update_solved otherUserState 5 "alice" 1 true = otherUserState ∧
    update_like otherUserState "alice" 1 (some 1) = otherUserState :=
  update_without_row_is_noop otherUserState 5 "alice" 1 true (some 1)
    (by decide)

end PuzzleBot
